import Mathlib

/-!
Shallow embedding of `src/auth0-sso-login.js` (client-side Auth0 SSO session
lifecycle): token-expiry policy, the renew-with-retry loop, the session state
machine (stored auth result, scheduled-renewal timer), logout/removeLogin, and
the interactive lock-widget fallback.  External collaborators (the Auth0
provider, the lock widget, the profile API, the wall clock) are modelled as
scripted inputs; observable effects (timer creation/cancellation, hook
invocations, navigation, provider calls) are recorded as an action trace.
-/

/-- Mirrors the authResult objects delivered by the provider's callbacks:
`accessToken`/`idToken`/`error` may be absent (JS `undefined` ↦ `none`);
`expiresIn` is the declared lifetime in seconds; `idTokenPayloadSub` models
`authResult.idTokenPayload.sub`. -/
structure AuthResult where
  accessToken : Option String
  idToken : Option String
  expiresIn : Int
  error : Option String
  idTokenPayloadSub : String
deriving DecidableEq, Repr

/-- Mirrors the plain-object errors flowing through the promise chain; a JS
field that may be `undefined` is an `Option`. -/
structure JsError where
  error : Option String
  errorDescription : Option String
  authResultError : Option String
deriving DecidableEq, Repr

/-- The rejection object built at line 249 of the source when the renewal
callback delivers no usable token:
`{ error: 'no_token_available', errorDescription: 'Failed to get valid token.',
authResultError: authResult.error }`. -/
def rejectionOf (a : AuthResult) : JsError :=
  { error := some "no_token_available"
    errorDescription := some "Failed to get valid token."
    authResultError := a.error }

/-- Lines 20–23 of the source (name kept, typo included):
`tokenExpiresAt = authResult.expiresIn * 1000 + Date.now()` (first clock read
`now1`), then `Math.floor((tokenExpiresAt - Date.now()) / 3) * 2` (second
clock read `now2`).  `Math.floor` of an integer quotient is `Int.fdiv`. -/
def getRemainingMillisToTokenEpxiry (a : AuthResult) (now1 now2 : Int) : Int :=
  let tokenExpiresAt := a.expiresIn * 1000 + now1
  (tokenExpiresAt - now2).fdiv 3 * 2

/-- The callback object passed to `windowInteraction.setTimeout` in
`tokenRefreshed` (line 101): `() => this.ensureLoggedIn({ enableLockWidget: true })`. -/
inductive TimerCallback
  | ensureLoggedInCb (enableLockWidget : Bool)
deriving DecidableEq, Repr

/-- A timer created through `windowInteraction.setTimeout` and still pending. -/
structure Timer where
  id : Nat
  delay : Int
  cb : TimerCallback
deriving DecidableEq, Repr

/-- The mutable fields of an `auth` instance (`this.authResult`,
`this.tokenRefreshHandle`) together with the window's pending
`windowInteraction` timers and a fresh-id counter for `setTimeout`. -/
structure AuthState where
  authResult : Option AuthResult
  tokenRefreshHandle : Option Nat
  pendingTimers : List Timer
  nextTimerId : Nat
deriving DecidableEq, Repr

/-- The constructor (lines 31–35): both instance fields start `null`,
and no timers are pending in a fresh window. -/
def initialAuthState : AuthState :=
  { authResult := none, tokenRefreshHandle := none, pendingTimers := [], nextTimerId := 0 }

/-- Which optional hooks `config.hooks` carries (presence only; the hook
bodies are external). -/
structure Hooks where
  log : Bool
  tokenRefreshed : Bool
  profileRefreshed : Bool
  removeLogin : Bool
  «logout» : Bool
deriving DecidableEq, Repr

/-- The configuration surface read by the source. -/
structure Config where
  domain : String
  clientId : String
  logoutRedirectUri : String
  loginRedirectUri : String
  audience : String
  hooks : Hooks
deriving DecidableEq, Repr

/-- Observable effects, recorded in program order. -/
inductive Effect
  | invokeRenew
  | wait (ms : Nat)
  | clearTimeoutA (id : Nat)
  | setTimeoutA (id : Nat) (delay : Int) (cb : TimerCallback)
  | hookTokenRefreshedA
  | hookRemoveLoginA
  | hookLogoutA
  | hookProfileRefreshedA
  | logA
  | navigate (url : String)
  | showLock
  | hideLock
  | getUserInfoA
  | getDetailedProfileA (sub : String)
deriving DecidableEq, Repr

/-- `getLatestAuthResult` (lines 73–75). -/
def getLatestAuthResult (s : AuthState) : Option AuthResult :=
  s.authResult

/-- The `if (this.tokenRefreshHandle) windowInteraction.clearTimeout(...)`
guard shared by `tokenRefreshed`, `removeLogin` and `logout`: the pending
timers left after cancelling the held handle. -/
def clearedTimers (s : AuthState) : List Timer :=
  match s.tokenRefreshHandle with
  | some h => s.pendingTimers.filter (fun t => t.id != h)
  | none => s.pendingTimers

/-- The `clearTimeout` effect emitted by that same guard. -/
def clearActions (s : AuthState) : List Effect :=
  match s.tokenRefreshHandle with
  | some h => [Effect.clearTimeoutA h]
  | none => []

/-- `tokenRefreshed(authResult)` (lines 94–108): store the result, cancel the
held handle (if any), create the new timer firing
`ensureLoggedIn({enableLockWidget: true})` after
`getRemainingMillisToTokenEpxiry(authResult)` ms, then invoke the
token-refreshed hook when configured. -/
def tokenRefreshedRun (cfg : Config) (a : AuthResult) (now : Int) (s : AuthState) :
    AuthState × List Effect :=
  let newTimer : Timer :=
    { id := s.nextTimerId
      delay := getRemainingMillisToTokenEpxiry a now now
      cb := TimerCallback.ensureLoggedInCb true }
  let s' : AuthState :=
    { authResult := some a
      tokenRefreshHandle := some s.nextTimerId
      pendingTimers := newTimer :: clearedTimers s
      nextTimerId := s.nextTimerId + 1 }
  (s', clearActions s ++ [Effect.setTimeoutA newTimer.id newTimer.delay newTimer.cb]
        ++ (if cfg.hooks.tokenRefreshed then [Effect.hookTokenRefreshedA] else []))

/-- `removeLogin()` (lines 114–124): only when a handle is held, cancel it and
null out `authResult` (the handle field itself is never reset); then invoke
the remove-login hook when configured. -/
def removeLoginRun (cfg : Config) (s : AuthState) : AuthState × List Effect :=
  let s1 :=
    match s.tokenRefreshHandle with
    | some _ => { s with pendingTimers := clearedTimers s, authResult := none }
    | none => s
  (s1, clearActions s ++ (if cfg.hooks.removeLogin then [Effect.hookRemoveLoginA] else []))

/-- The logout URL template of line 141, with `encodeURIComponent` abstracted
as `enc`. -/
def logoutUrl (enc : String → String) (cfg : Config) : String :=
  "https://" ++ cfg.domain ++ "/v2/logout?returnTo=" ++ enc cfg.logoutRedirectUri
    ++ "&client_id=" ++ cfg.clientId

/-- `logout()` (lines 130–143): same guarded clearing as `removeLogin`, then
(since the constructor makes `this.config` always truthy) the logout hook when
configured, then navigation to the logout URL. -/
def logoutRun (enc : String → String) (cfg : Config) (s : AuthState) :
    AuthState × List Effect :=
  let s1 :=
    match s.tokenRefreshHandle with
    | some _ => { s with pendingTimers := clearedTimers s, authResult := none }
    | none => s
  (s1, clearActions s ++ (if cfg.hooks.logout then [Effect.hookLogoutA] else [])
        ++ [Effect.navigate (logoutUrl enc cfg)])

/-- One scripted response of the provider's `webAuth.renewAuth` callback:
either a truthy `err`, or an `authResult` (possibly lacking tokens). -/
inductive RenewResponse
  | err (e : JsError)
  | ok (a : AuthResult)
deriving DecidableEq, Repr

/-- The value `renewAuth` resolves with (lines 243–246). -/
structure LoginInfo where
  idToken : Option String
  sub : String
deriving DecidableEq, Repr

/-- The retry guard of line 254: `retries < 4 && error.authResultError === undefined`. -/
def shouldRetry (retries : Nat) (error : JsError) : Bool :=
  decide (retries < 4) && (error.authResultError == none)

/-- The fixed retry delay of line 255. -/
def retryDelayMillis : Nat := 1000

/-- `renewAuth(retries)` (lines 221–260) against a script of provider
responses, threading the instance state (a successful callback runs
`tokenRefreshed` before resolving).  Result `none` means the promise is still
unsettled (the script supplied no response for the current attempt).  The
trace records every provider invocation, the failure log of line 236, the
1000 ms retry delay, and the effects of `tokenRefreshed`. -/
def renewAuthRun (cfg : Config) (now : Int) :
    Nat → AuthState → List RenewResponse →
      Option (Except JsError LoginInfo) × AuthState × List Effect
  | _, s, [] => (none, s, [Effect.invokeRenew])
  | retries, s, RenewResponse.err e :: rest =>
      if shouldRetry retries e then
        let r := renewAuthRun cfg now (retries + 1) s rest
        (r.1, r.2.1, Effect.invokeRenew :: Effect.logA :: Effect.wait retryDelayMillis :: r.2.2)
      else
        (some (Except.error e), s, [Effect.invokeRenew, Effect.logA])
  | retries, s, RenewResponse.ok a :: rest =>
      if a.accessToken.isSome && a.idToken.isSome then
        let tr := tokenRefreshedRun cfg a now s
        (some (Except.ok { idToken := a.idToken, sub := a.idTokenPayloadSub }),
          tr.1, Effect.invokeRenew :: tr.2)
      else
        let e := rejectionOf a
        if shouldRetry retries e then
          let r := renewAuthRun cfg now (retries + 1) s rest
          (r.1, r.2.1, Effect.invokeRenew :: Effect.wait retryDelayMillis :: r.2.2)
        else
          (some (Except.error e), s, [Effect.invokeRenew])

/-- An event fired by the Auth0 lock widget (lines 186 and 204). -/
inductive LockEvent
  | authenticated (a : AuthResult)
  | authorizationError (e : JsError)
deriving DecidableEq, Repr

/-- A user profile as far as the source reads it (`profile.sub`). -/
structure Profile where
  sub : String
deriving DecidableEq, Repr

deriving instance DecidableEq for Except

/-- Scripted external inputs for the interactive lock-widget fallback
(lines 184–210): the widget event that fires, the provider responses consumed
by the internal `renewAuth()` of line 187, and the `lock.getUserInfo` result
of line 189. -/
structure WidgetScript where
  event : LockEvent
  renewResps : List RenewResponse
  userInfo : Except JsError Profile
deriving DecidableEq, Repr

/-- How a JS promise can end up: settled (resolved/rejected), permanently
unsettled (no handler ever calls resolve or reject), or still awaiting a
provider response the script did not supply. -/
inductive PromiseOutcome (α : Type)
  | resolved (v : α)
  | rejectedP (e : JsError)
  | neverSettles
  | awaitingProvider
deriving DecidableEq, Repr

/-- The promise built in the `catch` of `ensureLoggedIn` (lines 184–210).
On `authorization_error`: log, reject.  On `authenticated`: run the internal
`renewAuth()`; its `.then` has NO `.catch`, so if that renewal rejects,
neither `resolve` nor `reject` is ever called and the promise never settles.
On internal-renew success: `lock.getUserInfo`, `lock.hide()`, then reject the
error (after logging) or resolve `{idToken: authResult.idToken, sub: profile.sub}`. -/
def lockWidgetRun (cfg : Config) (now : Int) (s : AuthState) (w : WidgetScript) :
    PromiseOutcome LoginInfo × AuthState × List Effect :=
  match w.event with
  | LockEvent.authorizationError e =>
      (PromiseOutcome.rejectedP e, s, [Effect.showLock, Effect.logA])
  | LockEvent.authenticated a =>
      let r := renewAuthRun cfg now 0 s w.renewResps
      match r.1 with
      | none => (PromiseOutcome.awaitingProvider, r.2.1, Effect.showLock :: r.2.2)
      | some (Except.error _) => (PromiseOutcome.neverSettles, r.2.1, Effect.showLock :: r.2.2)
      | some (Except.ok _) =>
          match w.userInfo with
          | Except.error e =>
              (PromiseOutcome.rejectedP e, r.2.1,
                Effect.showLock :: r.2.2 ++ [Effect.getUserInfoA, Effect.hideLock, Effect.logA])
          | Except.ok p =>
              (PromiseOutcome.resolved { idToken := a.idToken, sub := p.sub }, r.2.1,
                Effect.showLock :: r.2.2 ++ [Effect.getUserInfoA, Effect.hideLock])

/-- How the promise returned by `ensureLoggedIn` ends up. -/
inductive EnsureOutcome
  | earlyResolved
  | resolvedProfile
  | rejectedWith (e : JsError)
  | neverSettles
  | awaitingProvider
deriving DecidableEq, Repr

/-- Scripted external inputs for one `ensureLoggedIn` call. -/
structure EnsureScript where
  renewResps : List RenewResponse
  widget : WidgetScript
  detailedProfile : Except JsError Profile
deriving DecidableEq, Repr

/-- The tail of the `ensureLoggedIn` promise chain (lines 212–213):
`getDetailedProfile(loginInfo.idToken, loginInfo.sub)` then the
profile-refreshed hook. -/
def profileChain (cfg : Config) (li : LoginInfo) (dp : Except JsError Profile) :
    EnsureOutcome × List Effect :=
  match dp with
  | Except.error e => (EnsureOutcome.rejectedWith e, [Effect.getDetailedProfileA li.sub])
  | Except.ok _ =>
      (EnsureOutcome.resolvedProfile,
        [Effect.getDetailedProfileA li.sub]
          ++ (if cfg.hooks.profileRefreshed then [Effect.hookProfileRefreshedA] else []))

/-- The body of `ensureLoggedIn` past the validity check (lines 162–213):
`renewAuth()`; on rejection `removeLogin()`, then either reject (widget
disabled) or log and fall back to the lock widget; any resolved login info
flows into `profileChain`. -/
def ensureLoginSequence (cfg : Config) (enableLockWidget : Bool) (s : AuthState)
    (now : Int) (sc : EnsureScript) : EnsureOutcome × AuthState × List Effect :=
  let r := renewAuthRun cfg now 0 s sc.renewResps
  match r.1 with
  | none => (EnsureOutcome.awaitingProvider, r.2.1, r.2.2)
  | some (Except.ok li) =>
      let pc := profileChain cfg li sc.detailedProfile
      (pc.1, r.2.1, r.2.2 ++ pc.2)
  | some (Except.error e) =>
      let s1 := (removeLoginRun cfg r.2.1).1
      let removeActs := (removeLoginRun cfg r.2.1).2
      if !enableLockWidget then
        (EnsureOutcome.rejectedWith e, s1, r.2.2 ++ removeActs)
      else
        let w := lockWidgetRun cfg now s1 sc.widget
        match w.1 with
        | PromiseOutcome.resolved li =>
            let pc := profileChain cfg li sc.detailedProfile
            (pc.1, w.2.1, r.2.2 ++ removeActs ++ Effect.logA :: w.2.2 ++ pc.2)
        | PromiseOutcome.rejectedP e2 =>
            (EnsureOutcome.rejectedWith e2, w.2.1, r.2.2 ++ removeActs ++ Effect.logA :: w.2.2)
        | PromiseOutcome.neverSettles =>
            (EnsureOutcome.neverSettles, w.2.1, r.2.2 ++ removeActs ++ Effect.logA :: w.2.2)
        | PromiseOutcome.awaitingProvider =>
            (EnsureOutcome.awaitingProvider, w.2.1, r.2.2 ++ removeActs ++ Effect.logA :: w.2.2)

/-- `ensureLoggedIn(configuration)` (lines 155–214): if a stored auth result
has positive remaining validity, resolve immediately (no effects); otherwise
run the renewal/fallback sequence. -/
def ensureLoggedInRun (cfg : Config) (enableLockWidget : Bool) (s : AuthState)
    (now : Int) (sc : EnsureScript) : EnsureOutcome × AuthState × List Effect :=
  match getLatestAuthResult s with
  | some a =>
      if 0 < getRemainingMillisToTokenEpxiry a now now then
        (EnsureOutcome.earlyResolved, s, [])
      else ensureLoginSequence cfg enableLockWidget s now sc
  | none => ensureLoginSequence cfg enableLockWidget s now sc

/-- A pending `windowInteraction` timer firing: the environment removes it
from the pending set and runs its callback (whose own state effects are the
other steps). -/
def fireTimer (t : Timer) (s : AuthState) : AuthState :=
  { s with pendingTimers := s.pendingTimers.erase t }

/-- The primitive state mutations of an `auth` instance: the only writes to
`this.authResult` / `this.tokenRefreshHandle` / the timer set are
`tokenRefreshed`, `removeLogin`, `logout`, and a timer firing (every other
method mutates state only through these). -/
inductive AuthStep : AuthState → AuthState → Prop
  | refresh (cfg : Config) (a : AuthResult) (now : Int) (s : AuthState) :
      AuthStep s (tokenRefreshedRun cfg a now s).1
  | remove (cfg : Config) (s : AuthState) :
      AuthStep s (removeLoginRun cfg s).1
  | doLogout (enc : String → String) (cfg : Config) (s : AuthState) :
      AuthStep s (logoutRun enc cfg s).1
  | fire (t : Timer) (s : AuthState) :
      t ∈ s.pendingTimers → AuthStep s (fireTimer t s)

/-- States an `auth` instance can reach from its constructor. -/
inductive Reachable : AuthState → Prop
  | init : Reachable initialAuthState
  | step {s s' : AuthState} : Reachable s → AuthStep s s' → Reachable s'

/-- Timer discipline: at most one `windowInteraction` timer is pending, and
any pending timer is the one the held handle refers to. -/
def timerInv (s : AuthState) : Prop :=
  s.pendingTimers.length ≤ 1 ∧ ∀ t ∈ s.pendingTimers, s.tokenRefreshHandle = some t.id

/-- Handle discipline: whenever an auth result is stored, a handle is held
(so the handle-guarded clearing in `removeLogin`/`logout` does fire). -/
def tokenHandleInv (s : AuthState) : Prop :=
  s.authResult.isSome → s.tokenRefreshHandle.isSome

theorem tokenRefreshedRun_fst (cfg : Config) (a : AuthResult) (now : Int) (s : AuthState) :
    (tokenRefreshedRun cfg a now s).1 =
      { authResult := some a
        tokenRefreshHandle := some s.nextTimerId
        pendingTimers :=
          { id := s.nextTimerId
            delay := getRemainingMillisToTokenEpxiry a now now
            cb := TimerCallback.ensureLoggedInCb true } :: clearedTimers s
        nextTimerId := s.nextTimerId + 1 } := rfl

theorem removeLoginRun_fst (cfg : Config) (s : AuthState) :
    (removeLoginRun cfg s).1 =
      match s.tokenRefreshHandle with
      | some _ => { s with pendingTimers := clearedTimers s, authResult := none }
      | none => s := rfl

theorem logoutRun_fst (enc : String → String) (cfg : Config) (s : AuthState) :
    (logoutRun enc cfg s).1 =
      match s.tokenRefreshHandle with
      | some _ => { s with pendingTimers := clearedTimers s, authResult := none }
      | none => s := rfl

theorem clearedTimers_eq_nil {s : AuthState}
    (h : ∀ t ∈ s.pendingTimers, s.tokenRefreshHandle = some t.id) :
    clearedTimers s = [] := by
  cases hh : s.tokenRefreshHandle with
  | none =>
      simp only [clearedTimers, hh]
      cases hp : s.pendingTimers with
      | nil => rfl
      | cons t ts =>
          have ht := h t (by rw [hp]; exact List.mem_cons_self t ts)
          rw [hh] at ht
          cases ht
  | some hid =>
      simp only [clearedTimers, hh]
      rw [List.filter_eq_nil_iff]
      intro t ht
      have h2 := h t ht
      rw [hh] at h2
      have h3 : t.id = hid := (Option.some.inj h2).symm
      simp [h3]

theorem step_timerInv {s s' : AuthState} (hs : timerInv s) (st : AuthStep s s') :
    timerInv s' := by
  obtain ⟨hlen, hall⟩ := hs
  cases st with
  | refresh cfg a now =>
      have hnil := clearedTimers_eq_nil hall
      rw [timerInv, tokenRefreshedRun_fst, hnil]
      constructor
      · simp
      · intro t ht
        simp only [List.mem_singleton] at ht
        simp [ht]
  | remove cfg =>
      rw [timerInv, removeLoginRun_fst]
      cases hh : s.tokenRefreshHandle with
      | some hid =>
          have hnil := clearedTimers_eq_nil hall
          simp [hnil]
      | none => exact ⟨hlen, hall⟩
  | doLogout enc cfg =>
      rw [timerInv, logoutRun_fst]
      cases hh : s.tokenRefreshHandle with
      | some hid =>
          have hnil := clearedTimers_eq_nil hall
          simp [hnil]
      | none => exact ⟨hlen, hall⟩
  | fire t ht =>
      constructor
      · exact le_trans (s.pendingTimers.erase_sublist t).length_le hlen
      · intro u hu
        exact hall u (s.pendingTimers.mem_of_mem_erase hu)

theorem step_tokenHandleInv {s s' : AuthState} (h1 : tokenHandleInv s)
    (st : AuthStep s s') : tokenHandleInv s' := by
  cases st with
  | refresh cfg a now =>
      rw [tokenHandleInv, tokenRefreshedRun_fst]
      intro
      simp
  | remove cfg =>
      rw [tokenHandleInv, removeLoginRun_fst]
      cases hh : s.tokenRefreshHandle with
      | some hid => simp [hh]
      | none =>
          intro ha
          have := h1 ha
          rw [hh] at this
          cases this
  | doLogout enc cfg =>
      rw [tokenHandleInv, logoutRun_fst]
      cases hh : s.tokenRefreshHandle with
      | some hid => simp [hh]
      | none =>
          intro ha
          have := h1 ha
          rw [hh] at this
          cases this
  | fire t ht => exact h1

theorem reachable_timerInv {s : AuthState} (h : Reachable s) : timerInv s := by
  induction h with
  | init =>
      constructor
      · simp [initialAuthState]
      · intro t ht
        simp [initialAuthState] at ht
  | step _ st ih => exact step_timerInv ih st

theorem reachable_tokenHandleInv {s : AuthState} (h : Reachable s) : tokenHandleInv s := by
  induction h with
  | init =>
      intro ha
      simp [initialAuthState] at ha
  | step _ st ih => exact step_tokenHandleInv ih st

/-- A healthy 90-second token, as in the spec's worked scenario. -/
def aToken90 : AuthResult :=
  { accessToken := some "at", idToken := some "it", expiresIn := 90, error := none
    idTokenPayloadSub := "auth0|user1" }

/-- A sample configuration for concrete evaluations. -/
def cfgSample : Config :=
  { domain := "example.auth0.com", clientId := "client1"
    logoutRedirectUri := "https://app.example.com/home"
    loginRedirectUri := "https://app.example.com/login"
    audience := "api.example.com"
    hooks := { log := false, tokenRefreshed := true, profileRefreshed := true
               removeLogin := false, «logout» := true } }

/-- Distinct transient renewal errors (`authResultError` undefined). -/
def te1 : JsError := { error := some "t1", errorDescription := none, authResultError := none }

def te2 : JsError := { error := some "t2", errorDescription := none, authResultError := none }

def te3 : JsError := { error := some "t3", errorDescription := none, authResultError := none }

def te4 : JsError := { error := some "t4", errorDescription := none, authResultError := none }

def te5 : JsError := { error := some "t5", errorDescription := none, authResultError := none }

/-- A permanent renewal error: `authResultError` is defined. -/
def permErr : JsError :=
  { error := some "login_required", errorDescription := none
    authResultError := some "login_required" }

/-- A truthy provider `authResult` with no usable tokens and no `error`
field: its `no_token_available` rejection carries `authResultError: undefined`. -/
def invalidNoError : AuthResult :=
  { accessToken := none, idToken := none, expiresIn := 0, error := none, idTokenPayloadSub := "" }

/-- A truthy provider `authResult` with no usable tokens whose `error` field
is set: its `no_token_available` rejection carries a defined `authResultError`. -/
def invalidWithError : AuthResult :=
  { accessToken := none, idToken := some "only-id", expiresIn := 0
    error := some "login_required", idTokenPayloadSub := "" }

/-- A widget script that never matters (the widget is not reached). -/
def widgetUnused : WidgetScript :=
  { event := LockEvent.authorizationError te1, renewResps := [], userInfo := Except.ok { sub := "s" } }

/-- A script that never matters (the early-return path is taken). -/
def scUnused : EnsureScript :=
  { renewResps := [], widget := widgetUnused, detailedProfile := Except.ok { sub := "s" } }

/-- The state right after a first successful `tokenRefreshed` on a fresh
instance: token stored, handle 0 held, one pending renewal timer. -/
def stateWithToken : AuthState :=
  { authResult := some aToken90, tokenRefreshHandle := some 0
    pendingTimers := [{ id := 0, delay := 60000, cb := TimerCallback.ensureLoggedInCb true }]
    nextTimerId := 1 }

theorem stateWithToken_reachable : Reachable stateWithToken := by
  have h := Reachable.step Reachable.init
    (AuthStep.refresh cfgSample aToken90 0 initialAuthState)
  have he : (tokenRefreshedRun cfgSample aToken90 0 initialAuthState).1 = stateWithToken := by
    decide
  rw [he] at h
  exact h

/-- C1: the Expiry Policy claim.  The code reads the clock twice in the same
expression — `expiresIn*1000 + Date.now()` then `... - Date.now()` — so the
elapsed time since issuance cancels and no `issuedAt` is ever consulted.  For
a 90 s token issued at clock 0 and queried at clock 61000 (more than
two-thirds of the lifetime elapsed, where the claim requires a non-positive
value), the code returns 60000 > 0; it returns the same 60000 at any other
query time. -/
theorem c1_expiry_evaluation :
    getRemainingMillisToTokenEpxiry aToken90 61000 61000 = 60000
      ∧ 0 < getRemainingMillisToTokenEpxiry aToken90 61000 61000
      ∧ getRemainingMillisToTokenEpxiry aToken90 1000000000 1000000000 = 60000
      ∧ getRemainingMillisToTokenEpxiry aToken90 0 0 = 60000 := by
  refine ⟨by decide, by decide, by decide, by decide⟩

/-- C2: for every stored auth result with positive `expiresIn`, the expiry
computation returns the constant `floor(expiresIn*1000/3)*2 > 0` whatever the
current clock value (the function never sees an issuance time), so any
`ensureLoggedIn` call made while such a token is stored — the
scheduled-renewal timer's own callback included — takes the early-return
branch: it resolves immediately, changes no state, performs no effect, and
never contacts the identity provider. -/
theorem c2_token_never_expires (a : AuthResult) (t : Int) (cfg : Config)
    (enableLockWidget : Bool) (s : AuthState) (sc : EnsureScript)
    (hpos : 0 < a.expiresIn) (hs : s.authResult = some a) :
    getRemainingMillisToTokenEpxiry a t t = (a.expiresIn * 1000).fdiv 3 * 2
      ∧ 0 < getRemainingMillisToTokenEpxiry a t t
      ∧ ensureLoggedInRun cfg enableLockWidget s t sc = (EnsureOutcome.earlyResolved, s, []) := by
  have hval : getRemainingMillisToTokenEpxiry a t t = (a.expiresIn * 1000).fdiv 3 * 2 := by
    simp [getRemainingMillisToTokenEpxiry]
  have hpos2 : 0 < (a.expiresIn * 1000).fdiv 3 * 2 := by
    have h3 : (3 : Int) ≤ a.expiresIn * 1000 := by omega
    rw [Int.fdiv_eq_ediv _ (by norm_num)]
    omega
  have hgt : 0 < getRemainingMillisToTokenEpxiry a t t := hval ▸ hpos2
  refine ⟨hval, hgt, ?_⟩
  simp only [ensureLoggedInRun, getLatestAuthResult, hs]
  rw [if_pos hgt]

/-- Witness for C2 at a concrete token, state and clock value. -/
theorem c2_token_never_expires_witness :
    getRemainingMillisToTokenEpxiry aToken90 123456789 123456789
        = (aToken90.expiresIn * 1000).fdiv 3 * 2
      ∧ 0 < getRemainingMillisToTokenEpxiry aToken90 123456789 123456789
      ∧ ensureLoggedInRun cfgSample true stateWithToken 123456789 scUnused
          = (EnsureOutcome.earlyResolved, stateWithToken, []) :=
  c2_token_never_expires aToken90 123456789 cfgSample true stateWithToken scUnused
    (by decide) rfl

/-- C9: with a stored token of positive remaining validity, `ensureLoggedIn`
resolves immediately: state unchanged (token and handle included) and an
empty effect trace — no renewal, no widget, no profile fetch, no hook. -/
theorem c9_valid_token_noop (cfg : Config) (enableLockWidget : Bool) (s : AuthState)
    (now : Int) (sc : EnsureScript) (a : AuthResult)
    (hs : s.authResult = some a)
    (hpos : 0 < getRemainingMillisToTokenEpxiry a now now) :
    ensureLoggedInRun cfg enableLockWidget s now sc = (EnsureOutcome.earlyResolved, s, []) := by
  simp only [ensureLoggedInRun, getLatestAuthResult, hs]
  rw [if_pos hpos]

/-- Witness for C9 at a concrete state and clock value. -/
theorem c9_valid_token_noop_witness :
    ensureLoggedInRun cfgSample false stateWithToken 0 scUnused
      = (EnsureOutcome.earlyResolved, stateWithToken, []) :=
  c9_valid_token_noop cfgSample false stateWithToken 0 scUnused aToken90 rfl (by decide)

/-- C3 counterexample: a definitive `no_token_available` rejection IS retried
when the invalid provider `authResult` carries no `error` field.  At attempt
number 0 the callback delivers a truthy result with no tokens and no error;
the code rejects with the no-token error whose `authResultError` is undefined,
the catch of line 254 classifies it as retryable, waits 1000 ms and invokes
the provider's silent renewal a second time — contradicting "rejects
immediately with that error and does not invoke the provider's silent renewal
again". -/
theorem c3_no_token_rejection_retried :
    rejectionOf invalidNoError =
        { error := some "no_token_available"
          errorDescription := some "Failed to get valid token."
          authResultError := none }
      ∧ renewAuthRun cfgSample 0 0 initialAuthState
            [RenewResponse.ok invalidNoError, RenewResponse.err permErr] =
          (some (Except.error permErr), initialAuthState,
            [Effect.invokeRenew, Effect.wait 1000, Effect.invokeRenew, Effect.logA])
      ∧ (renewAuthRun cfgSample 0 0 initialAuthState
            [RenewResponse.ok invalidNoError, RenewResponse.err permErr]).2.2.count
          Effect.invokeRenew = 2 := by
  refine ⟨rfl, by decide, by decide⟩

/-- C3 amended: a `no_token_available` rejection is never retried when the
invalid provider result carried an `error` field (so `authResultError` is
defined — the code's permanent classification): whatever the attempt number,
`renewAuth` rejects immediately with that rejection and performs exactly one
provider invocation.  (When the invalid result has no `error` field, the
rejection is classified transient and is retried, as the counterexample
shows.) -/
theorem c3_permanent_no_token_not_retried (cfg : Config) (now : Int) (n : Nat)
    (s : AuthState) (rest : List RenewResponse) (a : AuthResult)
    (htok : (a.accessToken.isSome && a.idToken.isSome) = false)
    (herr : a.error.isSome) :
    renewAuthRun cfg now n s (RenewResponse.ok a :: rest) =
      (some (Except.error (rejectionOf a)), s, [Effect.invokeRenew]) := by
  obtain ⟨v, hv⟩ := Option.isSome_iff_exists.mp herr
  have hsr : shouldRetry n (rejectionOf a) = false := by
    simp [shouldRetry, rejectionOf, hv]
  simp [renewAuthRun, htok, hsr]

/-- Witness for the amended C3 at attempt number 0 with a concrete invalid
result carrying a provider error, and a further scripted response that is
provably not consumed. -/
theorem c3_permanent_no_token_not_retried_witness :
    renewAuthRun cfgSample 0 0 initialAuthState
        [RenewResponse.ok invalidWithError, RenewResponse.err te1] =
      (some (Except.error (rejectionOf invalidWithError)), initialAuthState,
        [Effect.invokeRenew]) :=
  c3_permanent_no_token_not_retried cfgSample 0 0 initialAuthState
    [RenewResponse.err te1] invalidWithError (by decide) (by decide)

/-- C4: the retry decision of the catch at line 254 — as the function
`shouldRetry` of attempt number and error — permits a retry exactly for
attempt numbers 0, 1, 2, 3 with an error whose `authResultError` is undefined
(the transient classification), and denies it otherwise; the delay before a
permitted retry is the fixed 1000 ms, and `renewAuth` follows exactly this
decision on a failed attempt. -/
theorem c4_retry_policy (n : Nat) (e : JsError) (cfg : Config) (now : Int)
    (s : AuthState) (rest : List RenewResponse) :
    (shouldRetry n e = true ↔ ((n = 0 ∨ n = 1 ∨ n = 2 ∨ n = 3) ∧ e.authResultError = none))
      ∧ retryDelayMillis = 1000
      ∧ renewAuthRun cfg now n s (RenewResponse.err e :: rest) =
          (if shouldRetry n e then
            ((renewAuthRun cfg now (n + 1) s rest).1,
              (renewAuthRun cfg now (n + 1) s rest).2.1,
              Effect.invokeRenew :: Effect.logA :: Effect.wait 1000
                :: (renewAuthRun cfg now (n + 1) s rest).2.2)
          else (some (Except.error e), s, [Effect.invokeRenew, Effect.logA])) := by
  refine ⟨?_, rfl, ?_⟩
  · constructor
    · intro h
      rw [shouldRetry, Bool.and_eq_true] at h
      obtain ⟨h1, h2⟩ := h
      have h3 := of_decide_eq_true h1
      exact ⟨by omega, by simpa using h2⟩
    · rintro ⟨h1, h2⟩
      rw [shouldRetry, Bool.and_eq_true]
      refine ⟨decide_eq_true (by omega), by simp [h2]⟩
  · rw [renewAuthRun]
    rfl

theorem renewAuth_five_transient (cfg : Config) (now : Int) (s : AuthState)
    (e1 e2 e3 e4 e5 : JsError)
    (h1 : e1.authResultError = none) (h2 : e2.authResultError = none)
    (h3 : e3.authResultError = none) (h4 : e4.authResultError = none)
    (_h5 : e5.authResultError = none) :
    renewAuthRun cfg now 0 s
        [RenewResponse.err e1, RenewResponse.err e2, RenewResponse.err e3,
          RenewResponse.err e4, RenewResponse.err e5] =
      (some (Except.error e5), s,
        [Effect.invokeRenew, Effect.logA, Effect.wait 1000,
          Effect.invokeRenew, Effect.logA, Effect.wait 1000,
          Effect.invokeRenew, Effect.logA, Effect.wait 1000,
          Effect.invokeRenew, Effect.logA, Effect.wait 1000,
          Effect.invokeRenew, Effect.logA]) := by
  have s1 : shouldRetry 0 e1 = true := by simp [shouldRetry, h1]
  have s2 : shouldRetry 1 e2 = true := by simp [shouldRetry, h2]
  have s3 : shouldRetry 2 e3 = true := by simp [shouldRetry, h3]
  have s4 : shouldRetry 3 e4 = true := by simp [shouldRetry, h4]
  have s5 : shouldRetry 4 e5 = false := by simp [shouldRetry]
  simp [renewAuthRun, s1, s2, s3, s4, s5, retryDelayMillis]

/-- C6 counterexample: four consecutive transient silent-renewal failures with
`enableLockWidget = false` do NOT make `ensureLoggedIn` reject with the 4th
error — the catch of line 254 still allows a retry at attempt number 3, so a
fifth provider invocation is issued and the promise is still awaiting its
response. -/
theorem c6_four_failures_still_retries :
    (ensureLoggedInRun cfgSample false initialAuthState 0
        { renewResps := [RenewResponse.err te1, RenewResponse.err te2,
            RenewResponse.err te3, RenewResponse.err te4]
          widget := widgetUnused, detailedProfile := Except.ok { sub := "s" } }).1
        = EnsureOutcome.awaitingProvider
      ∧ (ensureLoggedInRun cfgSample false initialAuthState 0
          { renewResps := [RenewResponse.err te1, RenewResponse.err te2,
              RenewResponse.err te3, RenewResponse.err te4]
            widget := widgetUnused, detailedProfile := Except.ok { sub := "s" } }).1
        ≠ EnsureOutcome.rejectedWith te4
      ∧ (ensureLoggedInRun cfgSample false initialAuthState 0
          { renewResps := [RenewResponse.err te1, RenewResponse.err te2,
              RenewResponse.err te3, RenewResponse.err te4]
            widget := widgetUnused, detailedProfile := Except.ok { sub := "s" } }).2.2.count
          Effect.invokeRenew = 5 := by
  refine ⟨by decide, by decide, by decide⟩

/-- C6 amended: five consecutive transient silent-renewal failures (the
initial attempt plus the four retries the attempt budget allows) with
`enableLockWidget = false` make `ensureLoggedIn` run `removeLogin` (so no
login state remains) and reject with the 5th error; the interactive lock
widget is never shown. -/
theorem c6_five_failures_reject (cfg : Config) (now : Int) (s : AuthState)
    (e1 e2 e3 e4 e5 : JsError) (w : WidgetScript) (dp : Except JsError Profile)
    (h1 : e1.authResultError = none) (h2 : e2.authResultError = none)
    (h3 : e3.authResultError = none) (h4 : e4.authResultError = none)
    (h5 : e5.authResultError = none) (hs : s.authResult = none) :
    (ensureLoggedInRun cfg false s now
        { renewResps := [RenewResponse.err e1, RenewResponse.err e2, RenewResponse.err e3,
            RenewResponse.err e4, RenewResponse.err e5]
          widget := w, detailedProfile := dp }).1 = EnsureOutcome.rejectedWith e5
      ∧ (ensureLoggedInRun cfg false s now
          { renewResps := [RenewResponse.err e1, RenewResponse.err e2, RenewResponse.err e3,
              RenewResponse.err e4, RenewResponse.err e5]
            widget := w, detailedProfile := dp }).2.1
        = (removeLoginRun cfg s).1
      ∧ (ensureLoggedInRun cfg false s now
          { renewResps := [RenewResponse.err e1, RenewResponse.err e2, RenewResponse.err e3,
              RenewResponse.err e4, RenewResponse.err e5]
            widget := w, detailedProfile := dp }).2.1.authResult = none
      ∧ (ensureLoggedInRun cfg false s now
          { renewResps := [RenewResponse.err e1, RenewResponse.err e2, RenewResponse.err e3,
              RenewResponse.err e4, RenewResponse.err e5]
            widget := w, detailedProfile := dp }).2.2.count Effect.showLock = 0 := by
  have hrenew := renewAuth_five_transient cfg now s e1 e2 e3 e4 e5 h1 h2 h3 h4 h5
  have hbody : ensureLoggedInRun cfg false s now
      { renewResps := [RenewResponse.err e1, RenewResponse.err e2, RenewResponse.err e3,
          RenewResponse.err e4, RenewResponse.err e5]
        widget := w, detailedProfile := dp }
      = ensureLoginSequence cfg false s now
          { renewResps := [RenewResponse.err e1, RenewResponse.err e2, RenewResponse.err e3,
              RenewResponse.err e4, RenewResponse.err e5]
            widget := w, detailedProfile := dp } := by
    simp only [ensureLoggedInRun, getLatestAuthResult, hs]
  rw [hbody]
  simp only [ensureLoginSequence, hrenew]
  refine ⟨rfl, rfl, ?_, ?_⟩
  · rw [removeLoginRun_fst]
    cases hh : s.tokenRefreshHandle with
    | some hid => simp
    | none => simpa using hs
  · simp only [removeLoginRun, List.count_append]
    cases hh : s.tokenRefreshHandle with
    | some hid =>
        cases hrm : cfg.hooks.removeLogin <;> simp [clearActions, hh, List.count_cons]
    | none =>
        cases hrm : cfg.hooks.removeLogin <;> simp [clearActions, hh, List.count_cons]

/-- Witness for the amended C6 on a fresh instance with five concrete
distinct transient errors. -/
theorem c6_five_failures_reject_witness :
    (ensureLoggedInRun cfgSample false initialAuthState 0
        { renewResps := [RenewResponse.err te1, RenewResponse.err te2, RenewResponse.err te3,
            RenewResponse.err te4, RenewResponse.err te5]
          widget := widgetUnused, detailedProfile := Except.ok { sub := "s" } }).1
        = EnsureOutcome.rejectedWith te5
      ∧ (ensureLoggedInRun cfgSample false initialAuthState 0
          { renewResps := [RenewResponse.err te1, RenewResponse.err te2, RenewResponse.err te3,
              RenewResponse.err te4, RenewResponse.err te5]
            widget := widgetUnused, detailedProfile := Except.ok { sub := "s" } }).2.1
        = (removeLoginRun cfgSample initialAuthState).1
      ∧ (ensureLoggedInRun cfgSample false initialAuthState 0
          { renewResps := [RenewResponse.err te1, RenewResponse.err te2, RenewResponse.err te3,
              RenewResponse.err te4, RenewResponse.err te5]
            widget := widgetUnused, detailedProfile := Except.ok { sub := "s" } }).2.1.authResult = none
      ∧ (ensureLoggedInRun cfgSample false initialAuthState 0
          { renewResps := [RenewResponse.err te1, RenewResponse.err te2, RenewResponse.err te3,
              RenewResponse.err te4, RenewResponse.err te5]
            widget := widgetUnused, detailedProfile := Except.ok { sub := "s" } }).2.2.count
          Effect.showLock = 0 :=
  c6_five_failures_reject cfgSample 0 initialAuthState te1 te2 te3 te4 te5
    widgetUnused (Except.ok { sub := "s" }) rfl rfl rfl rfl rfl rfl

/-- C5: in any reachable state, `tokenRefreshed(a)` stores `a`, and its effect
trace first cancels the previously held timer (when one was held), then
creates the new timer — scheduled at `getRemainingMillisToTokenEpxiry(a)` with
the callback `ensureLoggedIn({enableLockWidget: true})` — and only then
invokes the token-refreshed hook (when configured); afterwards exactly the new
timer is pending.  Moreover every reachable state has at most one pending
renewal timer. -/
theorem c5_token_refreshed_single_timer (cfg : Config) (a : AuthResult) (now : Int)
    (s s' : AuthState) (hr : Reachable s) (hr' : Reachable s') :
    (tokenRefreshedRun cfg a now s).1.authResult = some a
      ∧ (tokenRefreshedRun cfg a now s).1.tokenRefreshHandle = some s.nextTimerId
      ∧ (tokenRefreshedRun cfg a now s).1.pendingTimers =
          [{ id := s.nextTimerId, delay := getRemainingMillisToTokenEpxiry a now now
             cb := TimerCallback.ensureLoggedInCb true }]
      ∧ (tokenRefreshedRun cfg a now s).2 =
          clearActions s
            ++ [Effect.setTimeoutA s.nextTimerId (getRemainingMillisToTokenEpxiry a now now)
                  (TimerCallback.ensureLoggedInCb true)]
            ++ (if cfg.hooks.tokenRefreshed then [Effect.hookTokenRefreshedA] else [])
      ∧ (tokenRefreshedRun cfg a now s).1.pendingTimers.length ≤ 1
      ∧ s'.pendingTimers.length ≤ 1 := by
  have hnil := clearedTimers_eq_nil (reachable_timerInv hr).2
  refine ⟨rfl, rfl, ?_, rfl, ?_, (reachable_timerInv hr').1⟩
  · rw [tokenRefreshedRun_fst, hnil]
  · rw [tokenRefreshedRun_fst, hnil]
    simp

/-- Witness for C5: a refresh on the (reachable) state that already holds a
token and a pending timer. -/
theorem c5_token_refreshed_single_timer_witness :
    (tokenRefreshedRun cfgSample aToken90 100 stateWithToken).1.authResult = some aToken90
      ∧ (tokenRefreshedRun cfgSample aToken90 100 stateWithToken).1.tokenRefreshHandle = some 1
      ∧ (tokenRefreshedRun cfgSample aToken90 100 stateWithToken).1.pendingTimers =
          [{ id := 1, delay := getRemainingMillisToTokenEpxiry aToken90 100 100
             cb := TimerCallback.ensureLoggedInCb true }]
      ∧ (tokenRefreshedRun cfgSample aToken90 100 stateWithToken).2 =
          clearActions stateWithToken
            ++ [Effect.setTimeoutA 1 (getRemainingMillisToTokenEpxiry aToken90 100 100)
                  (TimerCallback.ensureLoggedInCb true)]
            ++ (if cfgSample.hooks.tokenRefreshed then [Effect.hookTokenRefreshedA] else [])
      ∧ (tokenRefreshedRun cfgSample aToken90 100 stateWithToken).1.pendingTimers.length ≤ 1
      ∧ stateWithToken.pendingTimers.length ≤ 1 :=
  c5_token_refreshed_single_timer cfgSample aToken90 100 stateWithToken stateWithToken
    stateWithToken_reachable stateWithToken_reachable

/-- C7: in any reachable state, `logout()` leaves no pending renewal timer and
no stored token, and its effect trace is: cancel the held timer (when one was
held), invoke the logout hook exactly when configured, then navigate to
exactly `https://{domain}/v2/logout?returnTo={urlEncode(logoutRedirectUri)}&client_id={clientId}`. -/
theorem c7_logout_behavior (enc : String → String) (cfg : Config) (s : AuthState)
    (hr : Reachable s) :
    (logoutRun enc cfg s).1.pendingTimers = []
      ∧ (logoutRun enc cfg s).1.authResult = none
      ∧ (logoutRun enc cfg s).2 =
          clearActions s ++ (if cfg.hooks.logout then [Effect.hookLogoutA] else [])
            ++ [Effect.navigate (logoutUrl enc cfg)]
      ∧ logoutUrl enc cfg =
          "https://" ++ cfg.domain ++ "/v2/logout?returnTo=" ++ enc cfg.logoutRedirectUri
            ++ "&client_id=" ++ cfg.clientId := by
  have hinv := reachable_timerInv hr
  have hnil := clearedTimers_eq_nil hinv.2
  have hth := reachable_tokenHandleInv hr
  refine ⟨?_, ?_, rfl, rfl⟩
  · rw [logoutRun_fst]
    cases hh : s.tokenRefreshHandle with
    | some hid => simpa using hnil
    | none =>
        rw [clearedTimers, hh] at hnil
        simpa using hnil
  · rw [logoutRun_fst]
    cases hh : s.tokenRefreshHandle with
    | some hid => simp
    | none =>
        rw [tokenHandleInv, hh] at hth
        simp only []
        cases ha : s.authResult with
        | none => rfl
        | some a =>
            have := hth (by rw [ha]; rfl)
            cases this

/-- Witness for C7 on the reachable state holding a token and pending timer,
with a concrete encoder and configuration. -/
theorem c7_logout_behavior_witness :
    (logoutRun (fun x => x) cfgSample stateWithToken).1.pendingTimers = []
      ∧ (logoutRun (fun x => x) cfgSample stateWithToken).1.authResult = none
      ∧ (logoutRun (fun x => x) cfgSample stateWithToken).2 =
          clearActions stateWithToken
            ++ (if cfgSample.hooks.logout then [Effect.hookLogoutA] else [])
            ++ [Effect.navigate (logoutUrl (fun x => x) cfgSample)]
      ∧ logoutUrl (fun x => x) cfgSample =
          "https://" ++ cfgSample.domain ++ "/v2/logout?returnTo="
            ++ (fun x => x) cfgSample.logoutRedirectUri ++ "&client_id=" ++ cfgSample.clientId :=
  c7_logout_behavior (fun x => x) cfgSample stateWithToken stateWithToken_reachable

/-- C10: in every reachable state where an auth result is stored, a timer
handle is held (installed by `tokenRefreshed`, never reset to null by
`removeLogin`/`logout`), so the handle-guarded clearing in both `removeLogin`
and `logout` does clear the stored token there. -/
theorem c10_handle_invariant (s : AuthState) (cfg : Config) (enc : String → String)
    (hr : Reachable s) (ha : s.authResult.isSome) :
    s.tokenRefreshHandle.isSome
      ∧ (removeLoginRun cfg s).1.authResult = none
      ∧ (logoutRun enc cfg s).1.authResult = none := by
  have h1 := reachable_tokenHandleInv hr ha
  obtain ⟨hid, hh⟩ := Option.isSome_iff_exists.mp h1
  refine ⟨h1, ?_, ?_⟩
  · rw [removeLoginRun_fst, hh]
  · rw [logoutRun_fst, hh]

/-- Witness for C10 at the reachable state holding a token. -/
theorem c10_handle_invariant_witness :
    stateWithToken.tokenRefreshHandle.isSome
      ∧ (removeLoginRun cfgSample stateWithToken).1.authResult = none
      ∧ (logoutRun (fun x => x) cfgSample stateWithToken).1.authResult = none :=
  c10_handle_invariant stateWithToken cfgSample (fun x => x)
    stateWithToken_reachable (by decide)

/-- The widget script of C8's failing input: the user authenticates in the
lock widget, after which the internal `renewAuth()` of line 187 rejects
(here: immediately, with a permanent error). -/
def widgetRenewFails : WidgetScript :=
  { event := LockEvent.authenticated aToken90
    renewResps := [RenewResponse.err permErr]
    userInfo := Except.ok { sub := "auth0|user1" } }

/-- C8: the interactive-login fallback does NOT always surface errors as a
rejection.  At the failing input — silent renewal fails, the widget is shown,
the user authenticates, and the internal `renewAuth()` then rejects — the
`renewAuth().then(...)` chain of lines 187–201 has no rejection handler, so
neither `resolve` nor `reject` is ever called: the promise returned by
`ensureLoggedIn` never settles (it neither rejects nor resolves), while the
widget path was taken (the lock was shown).  The user-cancellation and
authorization-error events do reject, so the failing path is exactly the
internal-renewal failure. -/
theorem c8_widget_renew_failure_never_settles :
    (lockWidgetRun cfgSample 0 initialAuthState widgetRenewFails).1
        = PromiseOutcome.neverSettles
      ∧ (ensureLoggedInRun cfgSample true initialAuthState 0
          { renewResps := [RenewResponse.err permErr]
            widget := widgetRenewFails
            detailedProfile := Except.ok { sub := "auth0|user1" } }).1
        = EnsureOutcome.neverSettles
      ∧ (ensureLoggedInRun cfgSample true initialAuthState 0
          { renewResps := [RenewResponse.err permErr]
            widget := widgetRenewFails
            detailedProfile := Except.ok { sub := "auth0|user1" } }).2.2.count
          Effect.showLock = 1
      ∧ (lockWidgetRun cfgSample 0 initialAuthState
          { widgetRenewFails with event := LockEvent.authorizationError permErr }).1
        = PromiseOutcome.rejectedP permErr := by
  refine ⟨by decide, by decide, by decide, by decide⟩
